import Mathlib

/-!
Verification of the jvm-llm-serve backend worker against its specification.

Part 1 models the continuous-batching streaming handler (prefill / decode /
eviction over the sequence cache).  Part 2 models the model service worker
(load_model and handle_connection).  Part 3 models the socket-name
derivation and shutdown cleanup.  Part 4 models BackendCache initialization.
-/

/-- Sequence State held in the sequence cache for one request id:
the encoded context tokens (input_ids), the parallel attention mask
(0 = padding, 1 = real token) and whether incremental model state
(past_key_values) is present. -/
structure SeqState where
  input_ids : List Nat
  attention_mask : List Nat
  past_kv : Bool
deriving Repr, DecidableEq

/-- The sequence cache: a mapping from request id to its Sequence State. -/
abbrev SeqCache := List (String × SeqState)

/-- Dictionary lookup in the sequence cache. -/
def cacheLookup : SeqCache → String → Option SeqState
  | [], _ => none
  | p :: rest, i => if p.1 = i then some p.2 else cacheLookup rest i

/-- Dictionary assignment for an id already present in the sequence cache. -/
def cacheUpdate (c : SeqCache) (i : String) (s : SeqState) : SeqCache :=
  c.map (fun p => if p.1 = i then (i, s) else p)

/-- Effective length of a sequence: the sum of its attention mask, i.e. the
number of real (non padding) positions.  The handler measures sequence
lengths this way (torch.sum over the attention mask). -/
def effLen (s : SeqState) : Nat := s.attention_mask.sum

/-- The padding token id used when left-padding a batch. -/
def pad_token_id : Nat := 0

/-- Modelled from the spec: the per-sequence input preparation of
StreamingHandler.run_decode (file test_data/streaming/stream_handler.py,
which is not under src).  Spec 4.4 step 2 fixes left padding, grow-only;
the exact arithmetic, which spec section 9 leaves implementation-defined,
is fixed here so that the reference scenario of spec section 8 (and the
assertions of test_decoding_stage) hold: each sequence is sliced to its
masked suffix (its last effLen positions) and then left-padded with
pad tokens, and mask zeros, up to the target length L. -/
def padSeq (L : Nat) (s : SeqState) : SeqState :=
  let e := effLen s
  { input_ids := List.replicate (L - e) pad_token_id ++
      s.input_ids.drop (s.input_ids.length - e)
    attention_mask := List.replicate (L - e) 0 ++
      s.attention_mask.drop (s.attention_mask.length - e)
    past_kv := s.past_kv }

/-- Modelled from the spec: StreamingHandler.run_prefill (not under src).
Requires the id to be cached with no incremental state yet; runs one
isolated forward pass (the opaque forward capability gen), obtains one
generated token, appends it to input_ids with a mask entry of 1 and stores
the incremental state.  Returns the updated cache and the produced token
(none when the id is unknown or already has incremental state). -/
def run_prefill (gen : List Nat → List Nat → Nat) (cache : SeqCache)
    (i : String) : SeqCache × Option Nat :=
  match cacheLookup cache i with
  | none => (cache, none)
  | some s =>
    if s.past_kv then (cache, none)
    else
      let tok := gen s.input_ids s.attention_mask
      (cacheUpdate cache i
        { input_ids := s.input_ids ++ [tok]
          attention_mask := s.attention_mask ++ [1]
          past_kv := true }, some tok)

/-- Modelled from the spec: StreamingHandler.run_decode (not under src),
spec section 4.4.  One decode step for the ordered batch of request ids:
the target length is the maximum effective length over the batch, every
sequence is re-padded to the target (padSeq), the opaque forward capability
gen yields exactly one next token per id, and that token is appended to the
re-padded context and mask (mask entry 1).  Ids absent from the cache are
skipped (UnknownSequence is isolated to that request).  Returns the updated
cache and, per id in batch order, the one produced token. -/
def decodeStep (gen : List Nat → List Nat → Nat) (maxLen : Nat)
    (acc : SeqCache × List (String × Nat)) (i : String) :
    SeqCache × List (String × Nat) :=
  match cacheLookup acc.1 i with
  | none => acc
  | some s =>
    let p := padSeq maxLen s
    let tok := gen p.input_ids p.attention_mask
    (cacheUpdate acc.1 i
      { input_ids := p.input_ids ++ [tok]
        attention_mask := p.attention_mask ++ [1]
        past_kv := true },
     acc.2 ++ [(i, tok)])

/-- Modelled from the spec (continued): the full decode step folds
decodeStep over the batch ids in order. -/
def run_decode (gen : List Nat → List Nat → Nat) (cache : SeqCache)
    (ids : List String) : SeqCache × List (String × Nat) :=
  let lengths := ids.filterMap (fun i => (cacheLookup cache i).map effLen)
  let maxLen := lengths.foldr Nat.max 0
  ids.foldl (decodeStep gen maxLen) (cache, [])

/-- Modelled from the spec: eviction of a completed sequence from the
sequence cache (deletion of its id). -/
def evict (cache : SeqCache) (i : String) : SeqCache :=
  cache.filter (fun p => ¬ p.1 = i)

/-- The pair of cached tensor lengths for an id: physical length of
input_ids and of attention_mask (what the test asserts via size()[-1]). -/
def seqLens (cache : SeqCache) (i : String) : Option (Nat × Nat) :=
  (cacheLookup cache i).map (fun s => (s.input_ids.length, s.attention_mask.length))

/-- The invariant of claim C2: for every entry of the sequence cache, the
context and the mask have the same length. -/
def CacheWF (c : SeqCache) : Prop :=
  ∀ p ∈ c, (p : String × SeqState).2.input_ids.length = p.2.attention_mask.length

instance : DecidablePred CacheWF := fun c =>
  List.decidableBAll _ c

/-- Python exception values that the worker code can raise. -/
inductive PyErr where
  | keyError (key : String)
  | valueError (msg : String)
  | runtimeError (msg : String)
  | attributeError (msg : String)
  | assertionError
  | otherError (msg : String)
deriving Repr, DecidableEq

/-- A Load request as seen by TorchModelServiceWorker.load_model: a field
mapping where a field set to none means the key is absent from the mapping.
String fields stand for the decoded utf-8 bytes; an empty string is the
falsy (present but empty) value. -/
structure LoadModelRequest where
  modelPath : Option String
  modelName : Option String
  handler : Option String
  envelope : Option String
  batchSize : Option Int
  gpu : Option Int
  limitMaxImagePixels : Option Bool
deriving Repr, DecidableEq

/-- The argument tuple the worker passes to model_loader.load. -/
structure LoadParams where
  model_name : String
  model_dir : String
  handler : Option String
  gpu : Option Int
  batch_size : Option Int
  envelope : Option String
  limit_max_image_pixels : Bool
deriving Repr, DecidableEq

/-- Outcome of the external model loader capability (ModelLoaderFactory /
model_loader.load): a loaded service handle, a MemoryError, or any other
exception. -/
inductive LoadOutcome where
  | ok (service : Nat)
  | memErr
  | failure (e : PyErr)
deriving Repr, DecidableEq

/-- The handler value after Python truthiness filtering: the decoded
handler bytes when non-empty, else None. -/
def parsedHandler (h : String) : Option String :=
  if h = "" then none else some h

/-- The envelope value after the two source steps: None when the key is
absent, and None again when the decoded value is empty. -/
def parsedEnvelope (envelope : Option String) : Option String :=
  match envelope with
  | none => none
  | some e => if e.length > 0 then some e else none

/-- The argument tuple load_model passes to model_loader.load, assembled
from the parsed request fields. -/
def loadParams (model_name model_dir h : String) (req : LoadModelRequest) :
    LoadParams :=
  { model_name := model_name
    model_dir := model_dir
    handler := parsedHandler h
    gpu := req.gpu
    batch_size := req.batchSize
    envelope := parsedEnvelope req.envelope
    limit_max_image_pixels := req.limitMaxImagePixels.getD true }

/-- TorchModelServiceWorker.load_model.  Mirrors the source: reads
modelPath, modelName and handler by direct key access (a missing key raises
KeyError), reads envelope, batchSize, gpu and limitMaxImagePixels guarded
by key-presence checks, then calls the loader.  A MemoryError anywhere in
the try block returns the 507 triple; any other exception propagates.
Returns (service option, message, status code) on a normal return. -/
def load_model (loader : LoadParams → LoadOutcome) (req : LoadModelRequest) :
    Except PyErr (Option Nat × String × Nat) :=
  match req.modelPath with
  | none => .error (.keyError "modelPath")
  | some model_dir =>
    match req.modelName with
    | none => .error (.keyError "modelName")
    | some model_name =>
      match req.handler with
      | none => .error (.keyError "handler")
      | some h =>
        match loader (loadParams model_name model_dir h req) with
        | .ok service => .ok (some service, "loaded model " ++ model_name, 200)
        | .memErr => .ok (none, "System out of memory", 507)
        | .failure e => .error e

/-- One framed command as retrieved by retrieve_msg: cmd byte I (predict,
with an opaque payload), cmd byte L (load, with a Load request) or an
unknown command byte. -/
inductive Frame where
  | predict (payload : Nat)
  | load (req : LoadModelRequest)
  | unknown (cmd : String)
deriving Repr, DecidableEq

/-- A response written back on the connection: a load-model response frame
(create_load_model_response code message) or the bytes returned by
service.predict on the payload (kept symbolic as the service handle and
payload). -/
inductive Resp where
  | loadResp (code : Nat) (msg : String)
  | predictResp (service : Nat) (payload : Nat)
deriving Repr, DecidableEq

/-- Observable events of one connection, in order: a frame being read, a
response being written back (sendall), or an exception propagating out of
handle_connection (which kills the worker process). -/
inductive Event where
  | read (f : Frame)
  | write (r : Resp)
  | fatal (e : PyErr)
deriving Repr, DecidableEq

/-- TorchModelServiceWorker.handle_connection, as the event trace produced
on one connection from the list of frames the peer sends.  Mirrors the
source loop: read a frame; on I call service.predict and send the result
(with no loaded service, Python raises AttributeError on None before
anything is sent); on L call load_model, send the load response, then raise
RuntimeError when the code is not 200, else loop with the new service; on
any other command raise ValueError.  An exhausted frame list models the
peer closing the connection. -/
def handle_connection (loader : LoadParams → LoadOutcome)
    (service : Option Nat) : List Frame → List Event
  | [] => []
  | f :: rest =>
    Event.read f ::
    match f with
    | .predict payload =>
      match service with
      | none => [Event.fatal (.attributeError "NoneType object has no attribute predict")]
      | some svc => Event.write (.predictResp svc payload) ::
          handle_connection loader (some svc) rest
    | .load req =>
      match load_model loader req with
      | .error e => [Event.fatal e]
      | .ok (svc, result, code) =>
        Event.write (.loadResp code result) ::
        if code ≠ 200 then
          [Event.fatal (.runtimeError (toString code ++ " - " ++ result))]
        else
          handle_connection loader svc rest
    | .unknown c => [Event.fatal (.valueError ("Received unknown command: " ++ c))]

/-- The processing of one single command: the responses it writes back, and
either the service state carried to the next loop iteration or the
exception that terminates the connection.  Used to state that the
connection loop is strictly sequential. -/
def dispatch (loader : LoadParams → LoadOutcome) (service : Option Nat) :
    Frame → List Resp × (Option Nat ⊕ PyErr)
  | .predict payload =>
    match service with
    | none => ([], .inr (.attributeError "NoneType object has no attribute predict"))
    | some svc => ([.predictResp svc payload], .inl (some svc))
  | .load req =>
    match load_model loader req with
    | .error e => ([], .inr e)
    | .ok (svc, result, code) =>
      if code ≠ 200 then
        ([.loadResp code result], .inr (.runtimeError (toString code ++ " - " ++ result)))
      else
        ([.loadResp code result], .inl svc)
  | .unknown c => ([], .inr (.valueError ("Received unknown command: " ++ c)))

/-- rsplit at the last dot: the part before it and the part after it,
or none when the string holds no dot (in which case the source raises
IndexError on parts[1]). -/
def rsplitDot (s : String) : Option (String × String) :=
  let rev := s.toList.reverse
  if ('.') ∈ rev then
    some (⟨((rev.dropWhile (fun c => ¬ c = '.')).drop 1).reverse⟩,
          ⟨(rev.takeWhile (fun c => ¬ c = '.')).reverse⟩)
  else none

/-- Python int() on a digit string, accumulator form. -/
def digitsToNatAux : List Char → Nat → Option Nat
  | [], acc => some acc
  | c :: rest, acc =>
    if '0' ≤ c ∧ c ≤ '9' then
      digitsToNatAux rest (acc * 10 + (c.toNat - ('0').toNat))
    else none

/-- Python int() applied to a decoded suffix: the parsed number, or none
when the string is empty or holds a non-digit (ValueError). -/
def digitsToNat (cs : List Char) : Option Nat :=
  match cs with
  | [] => none
  | _ => digitsToNatAux cs 0

/-- The socket-path derivation of TorchModelServiceWorker.__init__ for a
unix socket: s_name.rsplit(".", 1), then the numeric suffix plus the
worker world rank.  none models the IndexError (no dot) or ValueError
(non-numeric suffix) cases. -/
def derivedSockName (s_name : String) (world_rank : Nat) : Option String :=
  match rsplitDot s_name with
  | none => none
  | some (stem, suffix) =>
    match digitsToNat suffix.toList with
    | none => none
    | some n => some (stem ++ "." ++ toString (n + world_rank))

/-- The shutdown cleanup in the module finally block: when the socket type
is unix and the original socket_name argument exists on the filesystem,
os.remove it.  The filesystem is modelled as the list of existing paths. -/
def shutdownCleanup (sock_type : String) (socket_name : String)
    (fs : List String) : List String :=
  if sock_type = "unix" ∧ socket_name ∈ fs then fs.erase socket_name else fs

/-- The unix-socket lifecycle of the worker process on the filesystem:
the constructor removes a pre-existing file at the derived (rank-suffixed)
socket path, run_server binds it (creating the file), and the module
finally block then runs shutdownCleanup on the original socket name.
Returns the set of paths existing after shutdown (none when the name
derivation itself fails). -/
def workerLifecycleFs (s_name : String) (world_rank : Nat)
    (fs : List String) : Option (List String) :=
  match derivedSockName s_name world_rank with
  | none => none
  | some bound =>
    let fs1 := fs.erase bound
    let fs2 := fs1 ++ [bound]
    some (shutdownCleanup "unix" s_name fs2)

/-- The cache section of a model yaml config: the module and config values
(none models an absent key). -/
structure CacheSection where
  module : Option String
  config : Option String
deriving Repr, DecidableEq

/-- A model_yaml_config mapping, reduced to the keys BackendCache reads:
a key-to-cache-section association (the cache key is absent when the
lookup yields none). -/
abbrev ModelYamlConfig := List (String × CacheSection)

/-- Key lookup in a model yaml config. -/
def yamlLookup : ModelYamlConfig → String → Option CacheSection
  | [], _ => none
  | p :: rest, k => if p.1 = k then some p.2 else yamlLookup rest k

/-- Python truthiness of the constant string the guard asserts: the
condition of the statement governed by the missing-cache check in
BackendCache.init is the non-empty literal, so it is truthy. -/
def missingCacheAssertCond : Bool := ! "Cache config not specified".isEmpty

/-- BackendCache.__init__ up to reading the cache module and config from
context.model_yaml_config.  Mirrors the source: when the cache key is
absent it executes the assert on a constant string (raising AssertionError
only if that constant were falsy), then unconditionally evaluates
ctx[cache][module] and ctx[cache][config], so a missing cache key raises
KeyError there.  The construction of the cache client from the module is
the external collaborator part and is returned symbolically. -/
def BackendCache_init (ctx : ModelYamlConfig) :
    Except PyErr (String × String) :=
  if yamlLookup ctx "cache" = none ∧ missingCacheAssertCond = false then
    .error .assertionError
  else
    match yamlLookup ctx "cache" with
    | none => .error (.keyError "cache")
    | some sec =>
      match sec.module with
      | none => .error (.keyError "module")
      | some m =>
        match sec.config with
        | none => .error (.keyError "config")
        | some cfg => .ok (m, cfg)

/-- The initial sequence cache of test_decoding_stage: id1 with a 5-token
prompt whose first two mask positions are zeroed, id2 with an 8-token
prompt with an all-ones mask, neither holding incremental state yet. -/
def scenarioCache : SeqCache :=
  [("id1", { input_ids := [3, 1, 4, 1, 5], attention_mask := [0, 0, 1, 1, 1],
             past_kv := false }),
   ("id2", { input_ids := [2, 7, 1, 8, 2, 8, 1, 8],
             attention_mask := [1, 1, 1, 1, 1, 1, 1, 1], past_kv := false })]

/-- The cache after both prefills of the scenario. -/
def scenarioPrefilled (gen : List Nat → List Nat → Nat) : SeqCache :=
  (run_prefill gen (run_prefill gen scenarioCache "id1").1 "id2").1

/-- First scenario decode call: id1 alone. -/
def scenarioD1 (gen : List Nat → List Nat → Nat) :
    SeqCache × List (String × Nat) :=
  run_decode gen (scenarioPrefilled gen) ["id1"]

/-- Second scenario decode call: id1 and id2 together. -/
def scenarioD2 (gen : List Nat → List Nat → Nat) :
    SeqCache × List (String × Nat) :=
  run_decode gen (scenarioD1 gen).1 ["id1", "id2"]

/-- Third scenario decode call: id1 alone again. -/
def scenarioD3 (gen : List Nat → List Nat → Nat) :
    SeqCache × List (String × Nat) :=
  run_decode gen (scenarioD2 gen).1 ["id1"]

/-- Fourth scenario decode call: id1 and id2 together again. -/
def scenarioD4 (gen : List Nat → List Nat → Nat) :
    SeqCache × List (String × Nat) :=
  run_decode gen (scenarioD3 gen).1 ["id1", "id2"]

/-- Claim C1: in the continuous-batching re-padding scenario (prefill id1
with a 5-token prompt and id2 with an 8-token prompt), decode of id1 alone
returns exactly one generated token for id1 and leaves its cached context
and mask lengths at 5; a following decode of both realigns both cached
lengths to 10; a further decode of id1 alone grows its lengths to 7; and a
final decode of both grows both lengths to 11.  Holds for every forward
capability gen, since the produced token values do not affect lengths. -/
theorem decoding_stage_scenario (gen : List Nat → List Nat → Nat) :
    (scenarioD1 gen).2.length = 1 ∧
    ((scenarioD1 gen).2.map Prod.fst) = ["id1"] ∧
    seqLens (scenarioD1 gen).1 "id1" = some (5, 5) ∧
    seqLens (scenarioD2 gen).1 "id1" = some (10, 10) ∧
    seqLens (scenarioD2 gen).1 "id2" = some (10, 10) ∧
    seqLens (scenarioD3 gen).1 "id1" = some (7, 7) ∧
    seqLens (scenarioD4 gen).1 "id1" = some (11, 11) ∧
    seqLens (scenarioD4 gen).1 "id2" = some (11, 11) := by
  have e1 : scenarioPrefilled gen =
      [("id1", { input_ids := [3, 1, 4, 1, 5, gen [3, 1, 4, 1, 5] [0, 0, 1, 1, 1]],
                 attention_mask := [0, 0, 1, 1, 1, 1], past_kv := true }),
       ("id2", { input_ids := [2, 7, 1, 8, 2, 8, 1, 8,
                   gen [2, 7, 1, 8, 2, 8, 1, 8] [1, 1, 1, 1, 1, 1, 1, 1]],
                 attention_mask := [1, 1, 1, 1, 1, 1, 1, 1, 1], past_kv := true })] := rfl
  generalize hA1 : gen [3, 1, 4, 1, 5] [0, 0, 1, 1, 1] = a1 at e1
  generalize hB1 : gen [2, 7, 1, 8, 2, 8, 1, 8] [1, 1, 1, 1, 1, 1, 1, 1] = b1 at e1
  have e2 : run_decode gen
      [("id1", { input_ids := [3, 1, 4, 1, 5, a1],
                 attention_mask := [0, 0, 1, 1, 1, 1], past_kv := true }),
       ("id2", { input_ids := [2, 7, 1, 8, 2, 8, 1, 8, b1],
                 attention_mask := [1, 1, 1, 1, 1, 1, 1, 1, 1], past_kv := true })]
      ["id1"] =
      ([("id1", { input_ids := [4, 1, 5, a1, gen [4, 1, 5, a1] [1, 1, 1, 1]],
                  attention_mask := [1, 1, 1, 1, 1], past_kv := true }),
        ("id2", { input_ids := [2, 7, 1, 8, 2, 8, 1, 8, b1],
                  attention_mask := [1, 1, 1, 1, 1, 1, 1, 1, 1], past_kv := true })],
       [("id1", gen [4, 1, 5, a1] [1, 1, 1, 1])]) := rfl
  generalize hA2 : gen [4, 1, 5, a1] [1, 1, 1, 1] = a2 at e2
  have e3 : run_decode gen
      [("id1", { input_ids := [4, 1, 5, a1, a2],
                 attention_mask := [1, 1, 1, 1, 1], past_kv := true }),
       ("id2", { input_ids := [2, 7, 1, 8, 2, 8, 1, 8, b1],
                 attention_mask := [1, 1, 1, 1, 1, 1, 1, 1, 1], past_kv := true })]
      ["id1", "id2"] =
      ([("id1", { input_ids := [0, 0, 0, 0, 4, 1, 5, a1, a2,
                    gen [0, 0, 0, 0, 4, 1, 5, a1, a2] [0, 0, 0, 0, 1, 1, 1, 1, 1]],
                  attention_mask := [0, 0, 0, 0, 1, 1, 1, 1, 1, 1], past_kv := true }),
        ("id2", { input_ids := [2, 7, 1, 8, 2, 8, 1, 8, b1,
                    gen [2, 7, 1, 8, 2, 8, 1, 8, b1] [1, 1, 1, 1, 1, 1, 1, 1, 1]],
                  attention_mask := [1, 1, 1, 1, 1, 1, 1, 1, 1, 1], past_kv := true })],
       [("id1", gen [0, 0, 0, 0, 4, 1, 5, a1, a2] [0, 0, 0, 0, 1, 1, 1, 1, 1]),
        ("id2", gen [2, 7, 1, 8, 2, 8, 1, 8, b1] [1, 1, 1, 1, 1, 1, 1, 1, 1])]) := rfl
  generalize hA3 : gen [0, 0, 0, 0, 4, 1, 5, a1, a2] [0, 0, 0, 0, 1, 1, 1, 1, 1] = a3 at e3
  generalize hB2 : gen [2, 7, 1, 8, 2, 8, 1, 8, b1] [1, 1, 1, 1, 1, 1, 1, 1, 1] = b2 at e3
  have e4 : run_decode gen
      [("id1", { input_ids := [0, 0, 0, 0, 4, 1, 5, a1, a2, a3],
                 attention_mask := [0, 0, 0, 0, 1, 1, 1, 1, 1, 1], past_kv := true }),
       ("id2", { input_ids := [2, 7, 1, 8, 2, 8, 1, 8, b1, b2],
                 attention_mask := [1, 1, 1, 1, 1, 1, 1, 1, 1, 1], past_kv := true })]
      ["id1"] =
      ([("id1", { input_ids := [4, 1, 5, a1, a2, a3,
                    gen [4, 1, 5, a1, a2, a3] [1, 1, 1, 1, 1, 1]],
                  attention_mask := [1, 1, 1, 1, 1, 1, 1], past_kv := true }),
        ("id2", { input_ids := [2, 7, 1, 8, 2, 8, 1, 8, b1, b2],
                  attention_mask := [1, 1, 1, 1, 1, 1, 1, 1, 1, 1], past_kv := true })],
       [("id1", gen [4, 1, 5, a1, a2, a3] [1, 1, 1, 1, 1, 1])]) := rfl
  generalize hA4 : gen [4, 1, 5, a1, a2, a3] [1, 1, 1, 1, 1, 1] = a4 at e4
  have e5 : run_decode gen
      [("id1", { input_ids := [4, 1, 5, a1, a2, a3, a4],
                 attention_mask := [1, 1, 1, 1, 1, 1, 1], past_kv := true }),
       ("id2", { input_ids := [2, 7, 1, 8, 2, 8, 1, 8, b1, b2],
                 attention_mask := [1, 1, 1, 1, 1, 1, 1, 1, 1, 1], past_kv := true })]
      ["id1", "id2"] =
      ([("id1", { input_ids := [0, 0, 0, 4, 1, 5, a1, a2, a3, a4,
                    gen [0, 0, 0, 4, 1, 5, a1, a2, a3, a4] [0, 0, 0, 1, 1, 1, 1, 1, 1, 1]],
                  attention_mask := [0, 0, 0, 1, 1, 1, 1, 1, 1, 1, 1], past_kv := true }),
        ("id2", { input_ids := [2, 7, 1, 8, 2, 8, 1, 8, b1, b2,
                    gen [2, 7, 1, 8, 2, 8, 1, 8, b1, b2] [1, 1, 1, 1, 1, 1, 1, 1, 1, 1]],
                  attention_mask := [1, 1, 1, 1, 1, 1, 1, 1, 1, 1, 1], past_kv := true })],
       [("id1", gen [0, 0, 0, 4, 1, 5, a1, a2, a3, a4] [0, 0, 0, 1, 1, 1, 1, 1, 1, 1]),
        ("id2", gen [2, 7, 1, 8, 2, 8, 1, 8, b1, b2] [1, 1, 1, 1, 1, 1, 1, 1, 1, 1])]) := rfl
  refine ⟨?_, ?_, ?_, ?_, ?_, ?_, ?_, ?_⟩ <;>
    simp only [scenarioD4, scenarioD3, scenarioD2, scenarioD1, e1, e2, e3, e4, e5] <;> rfl

/-- Claim C1, witness: the scenario instantiated at a concrete forward
capability. -/
theorem decoding_stage_scenario_witness :
    (scenarioD1 (fun _ _ => 9)).2.length = 1 ∧
    ((scenarioD1 (fun _ _ => 9)).2.map Prod.fst) = ["id1"] ∧
    seqLens (scenarioD1 (fun _ _ => 9)).1 "id1" = some (5, 5) ∧
    seqLens (scenarioD2 (fun _ _ => 9)).1 "id1" = some (10, 10) ∧
    seqLens (scenarioD2 (fun _ _ => 9)).1 "id2" = some (10, 10) ∧
    seqLens (scenarioD3 (fun _ _ => 9)).1 "id1" = some (7, 7) ∧
    seqLens (scenarioD4 (fun _ _ => 9)).1 "id1" = some (11, 11) ∧
    seqLens (scenarioD4 (fun _ _ => 9)).1 "id2" = some (11, 11) :=
  decoding_stage_scenario (fun _ _ => 9)

/-- Re-padding preserves equality of context and mask lengths. -/
theorem padSeq_length_eq (L : Nat) (s : SeqState)
    (h : s.input_ids.length = s.attention_mask.length) :
    (padSeq L s).input_ids.length = (padSeq L s).attention_mask.length := by
  simp [padSeq, h]

/-- A state found in a well-formed cache has equal context and mask
lengths. -/
theorem cacheLookup_wf (c : SeqCache) (i : String) (s : SeqState)
    (hc : CacheWF c) (h : cacheLookup c i = some s) :
    s.input_ids.length = s.attention_mask.length := by
  induction c with
  | nil => simp [cacheLookup] at h
  | cons p rest ih =>
    by_cases hp : p.1 = i
    · rw [cacheLookup, if_pos hp] at h
      cases h
      exact hc p (List.mem_cons_self _ _)
    · rw [cacheLookup, if_neg hp] at h
      exact ih (fun q hq => hc q (List.mem_cons_of_mem _ hq)) h

/-- Updating a well-formed cache with a length-balanced state keeps it
well formed. -/
theorem cacheUpdate_wf (c : SeqCache) (i : String) (s : SeqState)
    (hc : CacheWF c) (hs : s.input_ids.length = s.attention_mask.length) :
    CacheWF (cacheUpdate c i s) := by
  intro p hp
  rcases List.mem_map.mp hp with ⟨q, hq, hqp⟩
  by_cases h : q.1 = i
  · rw [if_pos h] at hqp
    subst hqp
    exact hs
  · rw [if_neg h] at hqp
    subst hqp
    exact hc q hq

/-- One per-id decode step preserves the length invariant. -/
theorem decodeStep_wf (gen : List Nat → List Nat → Nat) (L : Nat)
    (acc : SeqCache × List (String × Nat)) (i : String)
    (h : CacheWF acc.1) : CacheWF (decodeStep gen L acc i).1 := by
  unfold decodeStep
  cases hl : cacheLookup acc.1 i with
  | none => simpa using h
  | some s =>
    refine cacheUpdate_wf _ _ _ h ?_
    have hs := cacheLookup_wf _ _ _ h hl
    simp [padSeq_length_eq L s hs]

/-- Folding decode steps over a batch preserves the length invariant. -/
theorem foldl_decodeStep_wf (gen : List Nat → List Nat → Nat) (L : Nat) :
    ∀ (ids : List String) (acc : SeqCache × List (String × Nat)),
      CacheWF acc.1 → CacheWF (ids.foldl (decodeStep gen L) acc).1
  | [], _, h => h
  | i :: rest, acc, h =>
    foldl_decodeStep_wf gen L rest _ (decodeStep_wf gen L acc i h)

/-- run_prefill preserves the length invariant. -/
theorem run_prefill_wf (gen : List Nat → List Nat → Nat) (c : SeqCache)
    (i : String) (hc : CacheWF c) : CacheWF (run_prefill gen c i).1 := by
  unfold run_prefill
  cases hl : cacheLookup c i with
  | none => simpa using hc
  | some s =>
    by_cases hkv : s.past_kv
    · simpa [hkv] using hc
    · simp only [hkv, if_false, Bool.false_eq_true]
      refine cacheUpdate_wf _ _ _ hc ?_
      simp [cacheLookup_wf _ _ _ hc hl]

/-- run_decode preserves the length invariant. -/
theorem run_decode_wf (gen : List Nat → List Nat → Nat) (c : SeqCache)
    (ids : List String) (hc : CacheWF c) : CacheWF (run_decode gen c ids).1 := by
  unfold run_decode
  exact foldl_decodeStep_wf gen _ ids (c, []) hc

/-- Eviction preserves the length invariant. -/
theorem evict_wf (c : SeqCache) (i : String) (hc : CacheWF c) :
    CacheWF (evict c i) := by
  intro p hp
  exact hc p (List.mem_of_mem_filter hp)

/-- Claim C2: for every sequence in the sequence cache, context and mask
have equal length after every operation: prefill, every decode step, and
eviction (each operation preserves the invariant for all cached ids). -/
theorem cache_mask_length_invariant :
    (∀ (gen : List Nat → List Nat → Nat) (c : SeqCache) (i : String),
      CacheWF c → CacheWF (run_prefill gen c i).1) ∧
    (∀ (gen : List Nat → List Nat → Nat) (c : SeqCache) (ids : List String),
      CacheWF c → CacheWF (run_decode gen c ids).1) ∧
    (∀ (c : SeqCache) (i : String), CacheWF c → CacheWF (evict c i)) :=
  ⟨run_prefill_wf, run_decode_wf, evict_wf⟩

/-- Claim C2, witness: the invariant is preserved through a concrete
prefill, decode and eviction. -/
theorem cache_mask_length_invariant_witness :
    CacheWF (run_prefill (fun _ _ => 3)
      [("a", { input_ids := [4, 2], attention_mask := [0, 1], past_kv := false })] "a").1 ∧
    CacheWF (run_decode (fun _ _ => 3)
      [("a", { input_ids := [4, 2], attention_mask := [0, 1], past_kv := true })] ["a"]).1 ∧
    CacheWF (evict
      [("a", { input_ids := [4, 2], attention_mask := [0, 1], past_kv := true })] "a") :=
  ⟨cache_mask_length_invariant.1 (fun _ _ => 3) _ "a" (by decide),
   cache_mask_length_invariant.2.1 (fun _ _ => 3) _ ["a"] (by decide),
   cache_mask_length_invariant.2.2 _ "a" (by decide)⟩

/-- Claim C3: on a Load command whose load_model returns a non-200 code,
handle_connection first writes the response frame back on the connection
and only then raises RuntimeError (terminating the worker), leaving the
remaining frames unread; on code 200 it writes the response and loops back
to read the next frame with the new service. -/
theorem load_response_before_raise (loader : LoadParams → LoadOutcome)
    (service : Option Nat) (req : LoadModelRequest) (rest : List Frame)
    (svc : Option Nat) (result : String) (code : Nat)
    (h : load_model loader req = .ok (svc, result, code)) :
    (code ≠ 200 →
      handle_connection loader service (Frame.load req :: rest) =
        [Event.read (Frame.load req), Event.write (Resp.loadResp code result),
         Event.fatal (PyErr.runtimeError (toString code ++ " - " ++ result))]) ∧
    (code = 200 →
      handle_connection loader service (Frame.load req :: rest) =
        Event.read (Frame.load req) :: Event.write (Resp.loadResp code result) ::
          handle_connection loader svc rest) := by
  constructor <;> intro hc <;> simp [handle_connection, h, hc]

/-- Claim C3, witness: a concrete out-of-memory Load writes the 507
response and then dies, reading nothing further. -/
theorem load_response_before_raise_witness :
    handle_connection (fun _ => LoadOutcome.memErr) none
      [Frame.load { modelPath := some "dir", modelName := some "m",
                    handler := some "h", envelope := none, batchSize := none,
                    gpu := none, limitMaxImagePixels := none },
       Frame.predict 0] =
      [Event.read (Frame.load { modelPath := some "dir", modelName := some "m",
                                handler := some "h", envelope := none,
                                batchSize := none, gpu := none,
                                limitMaxImagePixels := none }),
       Event.write (Resp.loadResp 507 "System out of memory"),
       Event.fatal (PyErr.runtimeError "507 - System out of memory")] :=
  (load_response_before_raise (fun _ => LoadOutcome.memErr) none
    { modelPath := some "dir", modelName := some "m", handler := some "h",
      envelope := none, batchSize := none, gpu := none,
      limitMaxImagePixels := none }
    [Frame.predict 0] none "System out of memory" 507 rfl).1 (by decide)

/-- Claim C4: a Load request whose model loads successfully yields status
code 200 with the message loaded model name, for the model name field of
the request. -/
theorem load_model_success_message (loader : LoadParams → LoadOutcome)
    (req : LoadModelRequest) (model_dir model_name h : String) (svc : Nat)
    (hp : req.modelPath = some model_dir)
    (hn : req.modelName = some model_name)
    (hh : req.handler = some h)
    (hl : loader (loadParams model_name model_dir h req) = LoadOutcome.ok svc) :
    load_model loader req = .ok (some svc, "loaded model " ++ model_name, 200) := by
  simp [load_model, hp, hn, hh, hl]

/-- Claim C4, witness: a concrete successful load. -/
theorem load_model_success_message_witness :
    load_model (fun _ => LoadOutcome.ok 7)
      { modelPath := some "dir", modelName := some "mname", handler := some "",
        envelope := none, batchSize := none, gpu := none,
        limitMaxImagePixels := some false } =
      .ok (some 7, "loaded model mname", 200) :=
  load_model_success_message (fun _ => LoadOutcome.ok 7) _ "dir" "mname" "" 7
    rfl rfl rfl rfl

/-- Claim C5: load_model returns 507 with message System out of memory
exactly when loading raises MemoryError, and no other failure is converted
into a non-200 normal return: every non-200 normal return is that 507
triple. -/
theorem load_model_oom_exactly (loader : LoadParams → LoadOutcome)
    (req : LoadModelRequest) :
    (∀ (model_dir model_name h : String),
      req.modelPath = some model_dir → req.modelName = some model_name →
      req.handler = some h →
      loader (loadParams model_name model_dir h req) = LoadOutcome.memErr →
      load_model loader req = .ok (none, "System out of memory", 507)) ∧
    (∀ (svc : Option Nat) (msg : String) (code : Nat),
      load_model loader req = .ok (svc, msg, code) → code ≠ 200 →
      svc = none ∧ msg = "System out of memory" ∧ code = 507) := by
  constructor
  · intro d n h hp hn hh hl
    simp [load_model, hp, hn, hh, hl]
  · intro svc msg code hok hcode
    unfold load_model at hok
    repeat' split at hok
    all_goals simp_all

/-- Claim C5, witness: a concrete MemoryError load returns the 507 triple,
and that return is indeed classified as the only non-200 one. -/
theorem load_model_oom_exactly_witness :
    load_model (fun _ => LoadOutcome.memErr)
      { modelPath := some "dir", modelName := some "m", handler := some "h",
        envelope := none, batchSize := none, gpu := none,
        limitMaxImagePixels := none } =
      .ok (none, "System out of memory", 507) :=
  (load_model_oom_exactly (fun _ => LoadOutcome.memErr) _).1 "dir" "m" "h"
    rfl rfl rfl rfl

/-- Claim C6, counterexample: a Load request that omits the handler key
does not proceed to load with handler None; load_model raises KeyError
handler instead (unlike the guarded optional fields). -/
theorem load_model_missing_handler_counterexample :
    load_model (fun _ => LoadOutcome.ok 0)
      { modelPath := some "dir", modelName := some "m", handler := none,
        envelope := none, batchSize := none, gpu := none,
        limitMaxImagePixels := none } =
      .error (.keyError "handler") := rfl

/-- Claim C6, amended: a handler field that is present but empty is treated
as absent (None is passed to the loader) and loading proceeds; a request
omitting the handler key entirely makes load_model raise KeyError, unlike
envelope, batchSize, gpu and limitMaxImagePixels, which are checked for
presence. -/
theorem load_model_handler_empty_amended :
    (∀ (n d : String) (req : LoadModelRequest),
      (loadParams n d "" req).handler = none) ∧
    (∀ (loader : LoadParams → LoadOutcome) (d n : String) (env : Option String)
        (bs g : Option Int) (lim : Option Bool) (svc : Nat),
      loader (loadParams n d ""
        { modelPath := some d, modelName := some n, handler := some "",
          envelope := env, batchSize := bs, gpu := g,
          limitMaxImagePixels := lim }) = LoadOutcome.ok svc →
      load_model loader
        { modelPath := some d, modelName := some n, handler := some "",
          envelope := env, batchSize := bs, gpu := g,
          limitMaxImagePixels := lim } =
        .ok (some svc, "loaded model " ++ n, 200)) ∧
    (∀ (loader : LoadParams → LoadOutcome) (d n : String) (env : Option String)
        (bs g : Option Int) (lim : Option Bool),
      load_model loader
        { modelPath := some d, modelName := some n, handler := none,
          envelope := env, batchSize := bs, gpu := g,
          limitMaxImagePixels := lim } =
        .error (.keyError "handler")) := by
  refine ⟨fun n d req => rfl, ?_, fun loader d n env bs g lim => rfl⟩
  intro loader d n env bs g lim svc hl
  simp [load_model, hl]

/-- Claim C6, witness for the amended claim: a concrete empty-handler Load
proceeds and succeeds. -/
theorem load_model_handler_empty_amended_witness :
    load_model (fun _ => LoadOutcome.ok 4)
      { modelPath := some "dir", modelName := some "m", handler := some "",
        envelope := none, batchSize := none, gpu := none,
        limitMaxImagePixels := none } =
      .ok (some 4, "loaded model m", 200) :=
  load_model_handler_empty_amended.2.1 (fun _ => LoadOutcome.ok 4) "dir" "m"
    none none none none 4 rfl

/-- Claim C7: a Predict command with no previously loaded Model Session
produces no prediction response (the worker dies on the None service before
writing anything); after a successful Load on the same connection, Predict
is answered by invoking predict on that loaded session and writing its
result back. -/
theorem predict_requires_session :
    (∀ (loader : LoadParams → LoadOutcome) (payload : Nat) (rest : List Frame),
      handle_connection loader none (Frame.predict payload :: rest) =
        [Event.read (Frame.predict payload),
         Event.fatal (PyErr.attributeError
           "NoneType object has no attribute predict")]) ∧
    (∀ (loader : LoadParams → LoadOutcome) (req : LoadModelRequest)
        (payload : Nat) (rest : List Frame) (svc : Nat) (result : String),
      load_model loader req = .ok (some svc, result, 200) →
      handle_connection loader none (Frame.load req :: Frame.predict payload :: rest) =
        Event.read (Frame.load req) :: Event.write (Resp.loadResp 200 result) ::
        Event.read (Frame.predict payload) ::
        Event.write (Resp.predictResp svc payload) ::
        handle_connection loader (some svc) rest) := by
  constructor
  · intro loader payload rest
    rfl
  · intro loader req payload rest svc result h
    simp [handle_connection, h]

/-- Claim C7, witness: a concrete Load then Predict exchange. -/
theorem predict_requires_session_witness :
    handle_connection (fun _ => LoadOutcome.ok 5) none
      [Frame.load { modelPath := some "dir", modelName := some "m",
                    handler := some "h", envelope := none, batchSize := none,
                    gpu := none, limitMaxImagePixels := none },
       Frame.predict 42] =
      [Event.read (Frame.load { modelPath := some "dir", modelName := some "m",
                                handler := some "h", envelope := none,
                                batchSize := none, gpu := none,
                                limitMaxImagePixels := none }),
       Event.write (Resp.loadResp 200 "loaded model m"),
       Event.read (Frame.predict 42),
       Event.write (Resp.predictResp 5 42)] :=
  predict_requires_session.2 (fun _ => LoadOutcome.ok 5)
    { modelPath := some "dir", modelName := some "m", handler := some "h",
      envelope := none, batchSize := none, gpu := none,
      limitMaxImagePixels := none }
    42 [] 5 "loaded model m" rfl

/-- Claim C8: on one connection, commands are processed strictly
sequentially: the connection trace is the read of a frame, followed by all
responses that command writes, in order, followed (only then) by either the
processing of the remaining frames with the carried service or the fatal
event that ends the connection; an exhausted peer produces no events. -/
theorem connection_commands_sequential (loader : LoadParams → LoadOutcome)
    (service : Option Nat) :
    handle_connection loader service [] = [] ∧
    (∀ (f : Frame) (rest : List Frame),
      handle_connection loader service (f :: rest) =
        Event.read f :: ((dispatch loader service f).1.map Event.write ++
          match (dispatch loader service f).2 with
          | Sum.inl svc2 => handle_connection loader svc2 rest
          | Sum.inr e => [Event.fatal e])) := by
  refine ⟨rfl, ?_⟩
  intro f rest
  cases f with
  | predict payload => cases service <;> simp [handle_connection, dispatch]
  | load req =>
    cases h : load_model loader req with
    | error e => simp [handle_connection, dispatch, h]
    | ok t =>
      obtain ⟨svc, result, code⟩ := t
      by_cases hc : code = 200 <;> simp [handle_connection, dispatch, h, hc]
  | unknown c => simp [handle_connection, dispatch]

/-- Claim C8, witness: the sequential decomposition at a concrete frame. -/
theorem connection_commands_sequential_witness :
    handle_connection (fun _ => LoadOutcome.memErr) none [Frame.unknown "X"] =
      Event.read (Frame.unknown "X") ::
        ((dispatch (fun _ => LoadOutcome.memErr) none (Frame.unknown "X")).1.map
            Event.write ++
          match (dispatch (fun _ => LoadOutcome.memErr) none
              (Frame.unknown "X")).2 with
          | Sum.inl svc2 => handle_connection (fun _ => LoadOutcome.memErr) svc2 []
          | Sum.inr e => [Event.fatal e]) :=
  (connection_commands_sequential (fun _ => LoadOutcome.memErr) none).2
    (Frame.unknown "X") []

/-- Claim C9 is contradicted by the code: for a unix worker with socket
name /tmp/test.9000 at world rank 1, the constructor derives and binds
/tmp/test.9001, but the shutdown cleanup in the module finally block
removes the original socket_name /tmp/test.9000, so the bound socket file
/tmp/test.9001 is still present on the filesystem after shutdown. -/
theorem unix_socket_file_leaked_on_shutdown :
    derivedSockName "/tmp/test.9000" 1 = some "/tmp/test.9001" ∧
    workerLifecycleFs "/tmp/test.9000" 1 [] = some ["/tmp/test.9001"] ∧
    shutdownCleanup "unix" "/tmp/test.9000" ["/tmp/test.9001"] =
      ["/tmp/test.9001"] := by
  refine ⟨?_, ?_, ?_⟩ <;> decide

/-- Claim C10: when the model yaml config has no cache key, the guard
assert in BackendCache.init asserts a constant non-empty string and so
never raises AssertionError (for no config does init raise it), and init
instead raises KeyError when it reads the cache module and config. -/
theorem backend_cache_missing_cache_key :
    missingCacheAssertCond = true ∧
    (∀ ctx : ModelYamlConfig,
      BackendCache_init ctx ≠ Except.error PyErr.assertionError) ∧
    (∀ ctx : ModelYamlConfig, yamlLookup ctx "cache" = none →
      BackendCache_init ctx = .error (.keyError "cache")) := by
  have hm : missingCacheAssertCond = true := by decide
  refine ⟨hm, ?_, ?_⟩
  · intro ctx h
    unfold BackendCache_init at h
    repeat' split at h
    all_goals simp_all
  · intro ctx h
    simp [BackendCache_init, h, hm]

/-- Claim C10, witness: the empty config raises KeyError cache and not
AssertionError. -/
theorem backend_cache_missing_cache_key_witness :
    BackendCache_init [] = .error (.keyError "cache") :=
  backend_cache_missing_cache_key.2.2 [] rfl
